import Mathlib

/-!
Verification of the cinedle daily movie-guessing game core against its
TypeScript source (services/tmdb.ts and components/MovieGame.tsx).

The embedding below translates the deterministic core of the source:
the daily seed hash, the seed-to-index pool selection, the record
comparator `compareMovies`, the session submit/give-up gating and the
daily rollover of persisted snapshots.  JavaScript numbers are modelled
as rationals (all arithmetic the claims touch is exact), 32-bit integer
wrap-around is made explicit where the source uses bitwise operations,
and `null`/`undefined` become `Option`.
-/

namespace Cinedle

/-! ## Daily seed generator (services/tmdb.ts, getDailySeed) -/

/-- JavaScript ToInt32: wrap an integer into the signed 32-bit range. -/
def toInt32 (n : Int) : Int := (n + 2 ^ 31) % 2 ^ 32 - 2 ^ 31

/-- One loop iteration of getDailySeed:
`hash = ((hash << 5) - hash) + char; hash = hash & hash; hash += 20;`.
`hash << 5` coerces to 32-bit and wraps, `hash & hash` truncates the
exact sum back to 32-bit, and the trailing `+= 20` is exact. -/
def seedStep (hash : Int) (char : Nat) : Int :=
  toInt32 (toInt32 (toInt32 hash * 32) - hash + char) + 20

/-- Models getDailySeed(dateString): fold the character codes of the date
string through `seedStep` starting from 0 and take the absolute value. -/
def getDailySeed (dateString : String) : Int :=
  |dateString.data.foldl (fun hash c => seedStep hash c.toNat) 0|

/-! ## Pool selector (services/tmdb.ts, getDailyMovie) -/

/-- Deterministic selection core of getDailyMovie:
`index = seed % movieList.length; title = movieList[index]`.
Out-of-range indexing (empty catalog) yields `none` (JS `undefined`). -/
def getDailyMovieTitle (seed : Nat) (movieList : List String) : Option String :=
  movieList.get? (seed % movieList.length)

/-! ## Claims about the seed and the daily selector -/

/-- C1: getDailySeed is non-negative for every date key, pure and
deterministic (same input, same output), and maps the empty string to 0. -/
theorem getDailySeed_spec :
    (∀ d : String, 0 ≤ getDailySeed d) ∧
    (∀ d : String, getDailySeed d = getDailySeed d) ∧
    getDailySeed "" = 0 :=
  ⟨fun _ => abs_nonneg _, fun _ => rfl, by decide⟩

/-- C2: for every seed and non-empty catalog the daily selection returns
the catalog entry at index `seed % catalogSize`, and repeating the
selection with the same seed and catalog returns the same entry. -/
theorem getDailyMovieTitle_spec (seed : Nat) (movieList : List String)
    (h : movieList ≠ []) :
    getDailyMovieTitle seed movieList =
      some (movieList.get
        ⟨seed % movieList.length, Nat.mod_lt _ (List.length_pos.mpr h)⟩) ∧
    getDailyMovieTitle seed movieList = getDailyMovieTitle seed movieList := by
  refine ⟨?_, rfl⟩
  exact List.get?_eq_get (Nat.mod_lt _ (List.length_pos.mpr h))

/-- Witness for C2 at seed 7 and a three-title catalog: index 7 % 3 = 1. -/
theorem getDailyMovieTitle_spec_witness :
    (["a", "b", "c"] ≠ ([] : List String)) ∧
    getDailyMovieTitle 7 ["a", "b", "c"] =
      some ((["a", "b", "c"]).get ⟨7 % 3, by decide⟩) :=
  ⟨by decide, (getDailyMovieTitle_spec 7 ["a", "b", "c"] (by decide)).1⟩

/-! ## Record data model (config/tmdb.ts interfaces) -/

/-- Cast interface: id, name, character (profile_path omitted: never read
by the comparator or the claims). -/
structure Cast where
  id : Int
  name : String
  character : String
deriving DecidableEq

/-- Crew interface: id, name, job, department. -/
structure Crew where
  id : Int
  name : String
  job : String
  department : String
deriving DecidableEq

/-- Genre interface. -/
structure Genre where
  id : Int
  name : String
deriving DecidableEq

/-- ProductionCompany interface (logo_path, origin_country omitted:
never read by the comparator or the claims). -/
structure ProductionCompany where
  id : Int
  name : String
deriving DecidableEq

/-- Collection interface. -/
structure Collection where
  id : Int
  name : String
deriving DecidableEq

/-- Movie interface.  JS numbers are rationals; `runtime : number | null`
is an `Option`; `belongs_to_collection : Collection | null` likewise. -/
structure Movie where
  id : Int
  title : String
  release_date : String
  budget : ℚ
  revenue : ℚ
  runtime : Option ℚ
  cast : List Cast
  crew : List Crew
  genres : List Genre
  production_companies : List ProductionCompany
  belongs_to_collection : Option Collection
  tagline : String
deriving DecidableEq

/-- One numeric comparison block of MovieGuessResult
(`match` is a reserved word in Lean, hence `matched`). -/
structure NumBlock where
  matched : Bool
  difference : ℚ
  hint : String
deriving DecidableEq

/-- MovieGuessResult interface. -/
structure MovieGuessResult where
  isCorrect : Bool
  guessedMovie : Movie
  commonCast : List Cast
  commonCrew : List Crew
  commonGenres : List Genre
  commonProductionCompanies : List ProductionCompany
  sameCollection : Bool
  releaseYear : NumBlock
  budget : NumBlock
  revenue : NumBlock
  runtime : NumBlock
deriving DecidableEq

/-! ## Record comparator (services/tmdb.ts, compareMovies) -/

/-- The zero-initialized comparison block the source starts from:
`{ match: false, difference: 0, hint: '' }`. -/
def defaultBlock : NumBlock := ⟨false, 0, ""⟩

/-- JS truthiness of `number | null`: null and 0 are falsy. -/
def truthy (x : Option ℚ) : Bool :=
  match x with
  | none => false
  | some v => decide (v ≠ 0)

/-- JS optional chaining `movie.belongs_to_collection?.id`: null gives
undefined, otherwise the collection id. -/
def optCollectionId (c : Option Collection) : Option Int :=
  match c with
  | none => none
  | some col => some col.id

/-- Models `new Date(s).getFullYear()` for release-date strings of the
form YYYY-MM-DD: the leading dash-separated component read as a number. -/
def getFullYear (s : String) : Int :=
  (((s.splitOn "-").headD "").toNat?).getD 0

/-- Runtime block of compareMovies:
`if (targetMovie.runtime && guessedMovie.runtime) { diff = t - g;
match = |diff| <= 5; hint = diff > 0 ? 'longer' : 'shorter' }`. -/
def runtimeBlock (targetMovie guessedMovie : Movie) : NumBlock :=
  if truthy targetMovie.runtime && truthy guessedMovie.runtime then
    let diff := targetMovie.runtime.getD 0 - guessedMovie.runtime.getD 0
    ⟨decide (|diff| ≤ 5), diff, if 0 < diff then "longer" else "shorter"⟩
  else defaultBlock

/-- Release-year block of compareMovies: guarded by both date strings
being truthy (non-empty); `diff = targetYear - guessYear;
match = diff === 0; hint = diff > 0 ? 'newer' : 'older'`. -/
def releaseYearBlock (targetMovie guessedMovie : Movie) : NumBlock :=
  if targetMovie.release_date ≠ "" ∧ guessedMovie.release_date ≠ "" then
    let diff : ℚ :=
      getFullYear targetMovie.release_date - getFullYear guessedMovie.release_date
    ⟨decide (diff = 0), diff, if 0 < diff then "newer" else "older"⟩
  else defaultBlock

/-- Budget block of compareMovies (the updated, percentage-based variant):
only produced when at least one side is positive; one-sided-zero cases get
informational hints, otherwise the percentage difference relative to the
larger value selects 'similar budget' (< 20%) or a directional hint;
`match` is exact equality. -/
def budgetBlock (targetMovie guessedMovie : Movie) : NumBlock :=
  let targetBudget := targetMovie.budget
  let guessBudget := guessedMovie.budget
  if targetBudget > 0 ∨ guessBudget > 0 then
    let hint :=
      if targetBudget = 0 ∧ guessBudget > 0 then
        "no budget information available"
      else if targetBudget > 0 ∧ guessBudget = 0 then
        "budget information (your guess has none)"
      else
        let percentDiff := (targetBudget - guessBudget) / max targetBudget guessBudget * 100
        if |percentDiff| < 20 then "similar budget"
        else if 0 < percentDiff then "higher budget"
        else "lower budget"
    ⟨decide (targetBudget = guessBudget), targetBudget - guessBudget, hint⟩
  else defaultBlock

/-- Revenue block of compareMovies, same shape as the budget block with
the box-office hint strings. -/
def revenueBlock (targetMovie guessedMovie : Movie) : NumBlock :=
  let targetRevenue := targetMovie.revenue
  let guessRevenue := guessedMovie.revenue
  if targetRevenue > 0 ∨ guessRevenue > 0 then
    let hint :=
      if targetRevenue = 0 ∧ guessRevenue > 0 then
        "no box office information available"
      else if targetRevenue > 0 ∧ guessRevenue = 0 then
        "box office data (your guess has none)"
      else
        let percentDiff := (targetRevenue - guessRevenue) / max targetRevenue guessRevenue * 100
        if |percentDiff| < 20 then "similar box office performance"
        else if 0 < percentDiff then "more successful at the box office"
        else "less successful at the box office"
    ⟨decide (targetRevenue = guessRevenue), targetRevenue - guessRevenue, hint⟩
  else defaultBlock

/-- Models compareMovies(targetMovie, guessedMovie): identifier equality,
the four overlap lists filtered from the target by identity key against
the guess, the same-collection flag via `?.id === ?.id` (note: strict
equality of possibly-undefined values), and the four numeric blocks. -/
def compareMovies (targetMovie guessedMovie : Movie) : MovieGuessResult where
  isCorrect := decide (targetMovie.id = guessedMovie.id)
  guessedMovie := guessedMovie
  commonCast := targetMovie.cast.filter fun targetCastMember =>
    guessedMovie.cast.any fun guessCastMember =>
      guessCastMember.id == targetCastMember.id
  commonCrew := targetMovie.crew.filter fun targetCrewMember =>
    guessedMovie.crew.any fun guessCrewMember =>
      guessCrewMember.id == targetCrewMember.id &&
        guessCrewMember.job == targetCrewMember.job
  commonGenres := targetMovie.genres.filter fun targetGenre =>
    guessedMovie.genres.any fun guessGenre => guessGenre.id == targetGenre.id
  commonProductionCompanies := targetMovie.production_companies.filter fun targetCompany =>
    guessedMovie.production_companies.any fun guessCompany =>
      guessCompany.id == targetCompany.id
  sameCollection :=
    decide (optCollectionId targetMovie.belongs_to_collection =
      optCollectionId guessedMovie.belongs_to_collection)
  releaseYear := releaseYearBlock targetMovie guessedMovie
  budget := budgetBlock targetMovie guessedMovie
  revenue := revenueBlock targetMovie guessedMovie
  runtime := runtimeBlock targetMovie guessedMovie

/-! ## Concrete sample records for witnesses and counterexamples -/

/-- A minimal concrete movie record with the given id, budget, revenue,
runtime and parent collection; every list field is empty. -/
def mkMovie (n : Int) (b r : ℚ) (rt : Option ℚ) (col : Option Collection) : Movie where
  id := n
  title := "M"
  release_date := "2000-01-01"
  budget := b
  revenue := r
  runtime := rt
  cast := []
  crew := []
  genres := []
  production_companies := []
  belongs_to_collection := col
  tagline := ""

/-! ## Claims about the comparator -/

/-- C3 counterexample: two records that both lack a parent-collection
reference, yet compareMovies reports sameCollection = true (the source
compares `?.id === ?.id`, and `undefined === undefined` holds), where the
claim requires false. -/
theorem sameCollection_both_null_counterexample :
    (mkMovie 1 0 0 none none).belongs_to_collection = none ∧
    (mkMovie 2 0 0 none none).belongs_to_collection = none ∧
    (compareMovies (mkMovie 1 0 0 none none) (mkMovie 2 0 0 none none)).sameCollection
      = true := by
  refine ⟨rfl, rfl, ?_⟩
  decide

/-- C3 (amended): sameCollection is true iff the two parent-collection
references agree as optional values: both non-null with the same
collectionId, or both null (both-null IS reported as a match). -/
theorem sameCollection_iff (targetMovie guessedMovie : Movie) :
    (compareMovies targetMovie guessedMovie).sameCollection = true ↔
      ((∃ ct cg, targetMovie.belongs_to_collection = some ct ∧
          guessedMovie.belongs_to_collection = some cg ∧ ct.id = cg.id) ∨
        (targetMovie.belongs_to_collection = none ∧
          guessedMovie.belongs_to_collection = none)) := by
  simp only [compareMovies, decide_eq_true_eq]
  cases ht : targetMovie.belongs_to_collection <;>
    cases hg : guessedMovie.belongs_to_collection <;>
      simp [optCollectionId]

/-- C5: a crew entry of the target appears in the crew overlap list iff
the guess has a crew entry with both the same person id and the same job
title; matching the id alone is not enough. -/
theorem commonCrew_mem_iff (targetMovie guessedMovie : Movie) (e : Crew) :
    e ∈ (compareMovies targetMovie guessedMovie).commonCrew ↔
      (e ∈ targetMovie.crew ∧
        ∃ g ∈ guessedMovie.crew, g.id = e.id ∧ g.job = e.job) := by
  simp [compareMovies, List.mem_filter]

/-- C6 counterexample: for a record x with no parent collection,
compareMovies(x, x).sameCollection is true, not
(x.belongs_to_collection != null) = false as the claim states. -/
theorem compare_self_sameCollection_counterexample :
    (mkMovie 3 0 0 none none).belongs_to_collection = none ∧
    (compareMovies (mkMovie 3 0 0 none none) (mkMovie 3 0 0 none none)).sameCollection
      = true := by
  refine ⟨rfl, ?_⟩
  decide

/-- C6 (amended): comparing a record with itself yields isCorrect = true,
each overlap list equal to the corresponding full list of x, and
sameCollection = true unconditionally (also when x has no collection). -/
theorem compare_self_spec (x : Movie) :
    (compareMovies x x).isCorrect = true ∧
    (compareMovies x x).commonCast = x.cast ∧
    (compareMovies x x).commonCrew = x.crew ∧
    (compareMovies x x).commonGenres = x.genres ∧
    (compareMovies x x).commonProductionCompanies = x.production_companies ∧
    (compareMovies x x).sameCollection = true := by
  refine ⟨by simp [compareMovies], ?_, ?_, ?_, ?_, by simp [compareMovies]⟩ <;>
    · simp only [compareMovies]
      refine List.filter_eq_self.mpr fun a ha => ?_
      exact List.any_eq_true.mpr ⟨a, ha, by simp⟩

/-- C4 counterexample: with target budget/revenue 100 and guess 50, the
percentage difference (relative to the larger value) is +50, so the source
emits the 'higher budget' / 'more successful at the box office' hints —
describing the target as higher — not the 'lower'/'less successful' hints
the claim names. -/
theorem budget_lower_hint_counterexample :
    (compareMovies (mkMovie 10 100 100 none none)
        (mkMovie 11 50 50 none none)).budget.hint ≠ "lower budget" ∧
    (compareMovies (mkMovie 10 100 100 none none)
        (mkMovie 11 50 50 none none)).revenue.hint
      ≠ "less successful at the box office" ∧
    (compareMovies (mkMovie 10 100 100 none none)
        (mkMovie 11 50 50 none none)).budget.hint = "higher budget" := by
  refine ⟨?_, ?_, ?_⟩ <;>
    norm_num [compareMovies, budgetBlock, revenueBlock, defaultBlock, mkMovie, max_def] <;>
    decide

/-- C4 (amended): with both values known, target=100 and guess=85 (15%
apart, inside the 20% band) yields the 'similar' hints; target=100 and
guess=50 (50% apart) yields the directional 'higher budget' /
'more successful at the box office' hints (the target exceeds the guess)
with match = false. -/
theorem budget_revenue_hints_spec :
    (compareMovies (mkMovie 10 100 100 none none)
        (mkMovie 12 85 85 none none)).budget.hint = "similar budget" ∧
    (compareMovies (mkMovie 10 100 100 none none)
        (mkMovie 12 85 85 none none)).revenue.hint
      = "similar box office performance" ∧
    (compareMovies (mkMovie 10 100 100 none none)
        (mkMovie 11 50 50 none none)).budget.hint = "higher budget" ∧
    (compareMovies (mkMovie 10 100 100 none none)
        (mkMovie 11 50 50 none none)).revenue.hint
      = "more successful at the box office" ∧
    (compareMovies (mkMovie 10 100 100 none none)
        (mkMovie 11 50 50 none none)).budget.matched = false ∧
    (compareMovies (mkMovie 10 100 100 none none)
        (mkMovie 11 50 50 none none)).revenue.matched = false := by
  refine ⟨?_, ?_, ?_, ?_, ?_, ?_⟩ <;>
    norm_num [compareMovies, budgetBlock, revenueBlock, defaultBlock, mkMovie, max_def]

/-- C10: when both runtimes are known (non-null, non-zero) and equal, the
runtime block reports match = true, difference = 0 and the non-empty hint
"shorter" (the `diff > 0 ? 'longer' : 'shorter'` ternary has no equality
case); and a runtime of exactly 0 is falsy, so the block stays at its
zero-initialized default. -/
theorem runtime_exact_match (targetMovie guessedMovie : Movie) (r : ℚ)
    (ht : targetMovie.runtime = some r) (hg : guessedMovie.runtime = some r)
    (hr : r ≠ 0) :
    (compareMovies targetMovie guessedMovie).runtime = ⟨true, 0, "shorter"⟩ ∧
    (∀ u v : Movie, u.runtime = some 0 →
      (compareMovies u v).runtime = ⟨false, 0, ""⟩) := by
  constructor
  · simp [compareMovies, runtimeBlock, truthy, ht, hg, hr, defaultBlock]
  · intro u v hu
    simp [compareMovies, runtimeBlock, truthy, hu, defaultBlock]

/-- Witness for C10: two records with runtime 120 minutes. -/
theorem runtime_exact_match_witness :
    ((mkMovie 20 0 0 (some 120) none).runtime = some 120 ∧
      (mkMovie 21 0 0 (some 120) none).runtime = some 120 ∧ (120 : ℚ) ≠ 0) ∧
    (compareMovies (mkMovie 20 0 0 (some 120) none)
        (mkMovie 21 0 0 (some 120) none)).runtime = ⟨true, 0, "shorter"⟩ :=
  ⟨⟨rfl, rfl, by norm_num⟩,
    (runtime_exact_match (mkMovie 20 0 0 (some 120) none)
      (mkMovie 21 0 0 (some 120) none) 120 rfl rfl (by norm_num)).1⟩

/-! ## Session state model (components/MovieGame.tsx) -/

/-- One game session (daily or practice): the per-mode React state
`guesses / won / hasGivenUp / hintUsed` of MovieGame. -/
structure GameSession where
  guesses : List MovieGuessResult
  won : Bool
  gaveUp : Bool
  hintUsed : Bool
deriving DecidableEq

/-- Models a submitGuess attempt: the Guess button is disabled while
`won || hasGivenUp` (MovieGame.tsx, the `disabled` gate), so a terminal
session is left untouched; otherwise handleSubmitGuess appends
`compareMovies(target, guess)` to the history and sets `won` when the
result is correct. -/
def submitGuess (s : GameSession) (targetMovie guessedMovie : Movie) : GameSession :=
  if s.won || s.gaveUp then s
  else
    let result := compareMovies targetMovie guessedMovie
    { s with
      guesses := s.guesses ++ [result]
      won := if result.isCorrect then true else s.won }

/-- C7: in a terminal session (won or gave-up), submitGuess is rejected
with no state change; in particular the guess history is unchanged. -/
theorem submitGuess_terminal_rejected (s : GameSession)
    (targetMovie guessedMovie : Movie)
    (h : s.won = true ∨ s.gaveUp = true) :
    submitGuess s targetMovie guessedMovie = s ∧
    (submitGuess s targetMovie guessedMovie).guesses = s.guesses := by
  have hs : submitGuess s targetMovie guessedMovie = s := by
    rcases h with h | h <;> simp [submitGuess, h]
  exact ⟨hs, by rw [hs]⟩

/-- Witness for C7: a gave-up session with one recorded guess. -/
theorem submitGuess_terminal_rejected_witness :
    ((GameSession.mk [] false true false).won = true ∨
      (GameSession.mk [] false true false).gaveUp = true) ∧
    submitGuess (GameSession.mk [] false true false)
        (mkMovie 30 0 0 none none) (mkMovie 31 0 0 none none) =
      GameSession.mk [] false true false :=
  ⟨Or.inr rfl,
    (submitGuess_terminal_rejected (GameSession.mk [] false true false)
      (mkMovie 30 0 0 none none) (mkMovie 31 0 0 none none) (Or.inr rfl)).1⟩

/-! ## Daily rollover and persistence (components/MovieGame.tsx) -/

/-- A persisted snapshot of a session, as serialized to localStorage:
`{ targetMovie, guesses, won, gaveUp, hintUsed }`. -/
structure SavedGame where
  targetMovie : Option Movie
  guesses : List MovieGuessResult
  won : Bool
  gaveUp : Bool
  hintUsed : Bool
deriving DecidableEq

/-- Outcome of daily initialization: either the saved snapshot is
rehydrated, or a freshly selected daily movie becomes the target. -/
inductive InitOutcome where
  | loadedSnapshot (snap : SavedGame)
  | freshDaily (m : Movie)
deriving DecidableEq

/-- Models initializeGame (MovieGame.tsx): the saved snapshot is
rehydrated only when the stored date key equals today's date string and
the snapshot holds a target movie; every other case falls through to a
fresh daily selection (`getDailyMovie`, here the `dailyMovie` argument). -/
def initializeGame (lastPlayedDate : Option String) (savedState : Option SavedGame)
    (todayString : String) (dailyMovie : Movie) : InitOutcome :=
  match lastPlayedDate, savedState with
  | some d, some snap =>
    if d = todayString then
      match snap.targetMovie with
      | some _ => .loadedSnapshot snap
      | none => .freshDaily dailyMovie
    else .freshDaily dailyMovie
  | _, _ => .freshDaily dailyMovie

/-- Models the day-rollover effect (MovieGame.tsx): when the stored date
key differs from today, the practice-mode storage entry is removed
(`localStorage.removeItem(PRACTICE_STORAGE_KEY)`); otherwise it is kept. -/
def rolloverPracticeStore (lastPlayedDate : Option String) (todayString : String)
    (practiceStore : Option SavedGame) : Option SavedGame :=
  if lastPlayedDate = some todayString then practiceStore else none

/-- C8: a persisted daily snapshot whose stored date key differs from
today is never rehydrated — initialization selects a fresh daily target —
and the practice-mode storage is cleared at the day rollover. -/
theorem initializeGame_rollover (lastPlayedDate : Option String)
    (savedState : Option SavedGame) (practiceStore : Option SavedGame)
    (todayString : String) (dailyMovie : Movie)
    (h : lastPlayedDate ≠ some todayString) :
    initializeGame lastPlayedDate savedState todayString dailyMovie =
      .freshDaily dailyMovie ∧
    rolloverPracticeStore lastPlayedDate todayString practiceStore = none := by
  constructor
  · match lastPlayedDate, savedState with
    | none, _ => rfl
    | some d, none => rfl
    | some d, some snap =>
      have hd : d ≠ todayString := fun he => h (by rw [he])
      simp [initializeGame, hd]
  · simp [rolloverPracticeStore, h]

/-- Witness for C8: yesterday's stored date key against today's. -/
theorem initializeGame_rollover_witness :
    ((some "Wed Jan 01 2025" : Option String) ≠ some "Thu Jan 02 2025") ∧
    initializeGame (some "Wed Jan 01 2025")
        (some (SavedGame.mk (some (mkMovie 40 0 0 none none)) [] false false false))
        "Thu Jan 02 2025" (mkMovie 41 0 0 none none) =
      .freshDaily (mkMovie 41 0 0 none none) ∧
    rolloverPracticeStore (some "Wed Jan 01 2025") "Thu Jan 02 2025"
        (some (SavedGame.mk none [] false false false)) = none := by
  have h : (some "Wed Jan 01 2025" : Option String) ≠ some "Thu Jan 02 2025" := by
    decide
  have hr := initializeGame_rollover (some "Wed Jan 01 2025")
    (some (SavedGame.mk (some (mkMovie 40 0 0 none none)) [] false false false))
    (some (SavedGame.mk none [] false false false))
    "Thu Jan 02 2025" (mkMovie 41 0 0 none none) h
  exact ⟨h, hr.1, hr.2⟩

/-! ## Random practice selection (services/tmdb.ts, getRandomPopularMovie) -/

/-- Models the retry loop of getRandomPopularMovie over a catalog of
movie ids: filter out ids in `usedMovieIds`; when nothing remains, clear
the used set and recurse, otherwise pick the entry at the random index
`r % availableMovies.length`.  The recursion of the source is bounded by
an explicit fuel; the claim below shows fuel 2 always suffices. -/
def getRandomPopularMovie : Nat → List Int → List Int → Nat → Option Int
  | 0, _, _, _ => none
  | fuel + 1, catalog, usedMovieIds, r =>
    let availableMovies := catalog.filter fun m => !(usedMovieIds.contains m)
    if availableMovies.isEmpty then
      getRandomPopularMovie fuel catalog [] r
    else
      availableMovies.get? (r % availableMovies.length)

/-- C9: for a non-empty catalog the random selection always terminates
within the clear-and-retry bound (two rounds), whatever the exclusion
set; when the exclusion set covers the whole catalog, the retry round
selects from the full, cleared catalog. -/
theorem getRandomPopularMovie_terminates (catalog usedMovieIds : List Int)
    (r : Nat) (h : catalog ≠ []) :
    (getRandomPopularMovie 2 catalog usedMovieIds r).isSome = true ∧
    getRandomPopularMovie 2 catalog catalog r =
      catalog.get? (r % catalog.length) := by
  have hlen : 0 < catalog.length := List.length_pos.mpr h
  have hfull : ∀ l : List Int, (l.filter fun m => !(([] : List Int).contains m)) = l := by
    intro l
    simp
  have hsome : ∀ l : List Int, l ≠ [] → (l.get? (r % l.length)).isSome = true := by
    intro l hl
    rw [List.get?_eq_get (Nat.mod_lt _ (List.length_pos.mpr hl))]
    rfl
  have hne : catalog.isEmpty = false := by
    simp [List.isEmpty_iff, h]
  constructor
  · by_cases he :
      (catalog.filter fun m => !(usedMovieIds.contains m)).isEmpty = true
    · simp only [getRandomPopularMovie, he, if_pos, hfull, hne,
        Bool.false_eq_true, if_neg, not_false_iff]
      exact hsome catalog h
    · simp only [getRandomPopularMovie, he, if_neg, Bool.false_eq_true,
        not_false_iff]
      exact hsome _ (by simpa [List.isEmpty_iff] using he)
  · have hcov : (catalog.filter fun m => !(catalog.contains m)).isEmpty = true := by
      simp [List.isEmpty_iff, List.filter_eq_nil_iff]
    simp only [getRandomPopularMovie, hcov, if_pos, hfull, hne,
      Bool.false_eq_true, if_neg, not_false_iff]

/-- Witness for C9: a three-id catalog with the exclusion set covering
all of it still yields a selection. -/
theorem getRandomPopularMovie_terminates_witness :
    (([5, 6, 7] : List Int) ≠ []) ∧
    (getRandomPopularMovie 2 [5, 6, 7] [5, 6, 7] 4).isSome = true :=
  ⟨by decide,
    (getRandomPopularMovie_terminates [5, 6, 7] [5, 6, 7] 4 (by decide)).1⟩

end Cinedle
